import Mathlib

/-!
Verification of the imagination-tools helper library: the schema-tagged
Google Cloud Storage wrapper (package simpler, storage.go), the Pub/Sub
publish wrapper (package simpler), and the CloudEvent unwrapper (package
econ).

The Go sources are shallowly embedded.  Each wrapper function becomes a Lean
function over explicit state; the external collaborators (the hamba/avro
library, encoding/json, the storage and pub/sub SDK clients) are modelled as
parameter structures of functions, since the spec declares them out of
scope.  A three-valued result type distinguishes a normal error return from
a runtime panic, because two places in storage.go can panic: the bare type
assertion `object.(avro.NamedSchema)` on the upload path, and the call
`ns.Name()` on a nil interface inside the download path's mismatch error
formatting.
-/

namespace ImaginationTools

/-- Result of a Go call: a normal return, a returned error (the Go
`error` value, carried as its message), or a runtime panic raised by a
failed bare type assertion or a method call through a nil interface. -/
inductive GoResult (α : Type) where
  | ok : α → GoResult α
  | error : String → GoResult α
  | panicked : String → GoResult α
deriving DecidableEq

/-- Model of a value of type `avro.Schema`: the dynamic type may or may not
additionally implement `avro.NamedSchema`; when it does, `name` holds the
result of its `Name()` method. -/
structure AvroSchema where
  name : Option String
deriving DecidableEq

/-- A stored GCS object as observed through the wrapper: body bytes, the
content type attribute, and the user metadata (a nil map is `none`). -/
structure StoredObject where
  data : List Nat
  contentType : String
  metadata : Option (List (String × String))
deriving DecidableEq

/-- The blob store state: bucket and object name to the stored object. -/
abbrev Store := String → String → Option StoredObject

/-- Writing an object into the store at bucket/name. -/
def Store.set (s : Store) (bucket name : String) (obj : StoredObject) : Store :=
  fun b n => if b = bucket ∧ n = name then some obj else s b n

/-- The empty store. -/
def Store.empty : Store := fun _ _ => none

/-- Go map indexing `attrs.Metadata[key]`: indexing a nil map or a missing
key yields the string zero value `""`. -/
def metaLookup (metadata : Option (List (String × String))) (key : String) : String :=
  match metadata with
  | none => ""
  | some m => (m.lookup key).getD ""

/-- The reserved metadata key, src/simpler/storage.go line 16. -/
def schemaRefKey : String := "schema_ref"

/-- The tag the download path reads from the stored object:
`attrs.Metadata[schemaRefKey]`, src/simpler/storage.go line 144. -/
def storedSchemaRef (obj : StoredObject) : String :=
  metaLookup obj.metadata schemaRefKey

/-- Model of the external behaviour attached to a caller value type `V`
implementing `SchemaProvider` (src/simpler/storage.go lines 55-57):
`schema v` is `v.Schema()`; `avroEncode v` is the outcome of
`avro.NewEncoderForSchema(v.Schema(), io.Discard).Encode(v)` (the
schema-constrained encode into a discard sink); `jsonMarshal` is
`json.Marshal`; `jsonUnmarshal data v` is `json.Unmarshal(data, &v)`,
returning the error, if any, together with the state of the destination
after the call; `selfNamed v` is the result of the type assertion
`v.(avro.NamedSchema)`: `some` of `Name()` when the value itself implements
`avro.NamedSchema`, `none` when the assertion fails. -/
structure GoModel (V : Type) where
  schema : V → AvroSchema
  avroEncode : V → Except String Unit
  jsonMarshal : V → Except String (List Nat)
  jsonUnmarshal : List Nat → V → Option String × V
  selfNamed : V → Option String

variable {V : Type}

/-- Shallow embedding of `storageClient.upload`, src/simpler/storage.go
lines 64-84: write the content to bucket/name, setting the content type
only when non-empty and the metadata only when non-nil.  The copy and close
calls of the external SDK writer are modelled as succeeding; their failure
modes belong to the out-of-scope storage client. -/
def upload (store : Store) (bucket name : String) (content : List Nat)
    (contentType : String) (metadata : Option (List (String × String))) :
    GoResult Unit × Store :=
  let wc0 : StoredObject := { data := content, contentType := "", metadata := none }
  let wc1 := if contentType ≠ "" then { wc0 with contentType := contentType } else wc0
  let wc2 := match metadata with
    | none => wc1
    | some m => { wc1 with metadata := some m }
  (GoResult.ok (), store.set bucket name wc2)

/-- Shallow embedding of `UploadJSONSchematized`, src/simpler/storage.go
lines 89-105: validate the object by a schema-constrained encode into a
discard sink, marshal it to JSON, then upload the bytes with content type
"application/json" and a single metadata entry under `schemaRefKey`.  The
metadata value is produced by the bare type assertion
`object.(avro.NamedSchema).Name()` on line 103, which panics when the value
does not itself implement `avro.NamedSchema`. -/
def UploadJSONSchematized (M : GoModel V) (store : Store) (bucket name : String)
    (object : V) : GoResult Unit × Store :=
  match M.avroEncode object with
  | .error e => (GoResult.error ("validating object against schema: " ++ e), store)
  | .ok _ =>
    match M.jsonMarshal object with
    | .error e => (GoResult.error ("marshaling object: " ++ e), store)
    | .ok data =>
      match M.selfNamed object with
      | none =>
        (GoResult.panicked "interface conversion: object is not avro.NamedSchema", store)
      | some nm =>
        upload store bucket name data "application/json" (some [(schemaRefKey, nm)])

/-- Shallow embedding of `DownloadJSONSchematized`, src/simpler/storage.go
lines 137-165.  The Bool component records whether body bytes of the object
were read (whether the `readObject` call on line 150 was reached).  Fetching
the attrs of a missing object fails; reading the body of an object that
exists is modelled as succeeding, its failure modes belonging to the
out-of-scope storage client.  When `object.Schema()` is not an
`avro.NamedSchema`, the guarded assertion on line 145 leaves `ns` as the
nil interface and the mismatch error formatting on line 147 calls
`ns.Name()`, a method call through a nil interface, hence a panic. -/
def DownloadJSONSchematized (M : GoModel V) (store : Store) (bucket name : String)
    (object : V) : GoResult V × Bool :=
  match store bucket name with
  | none => (GoResult.error "getting attrs: storage: object doesn't exist", false)
  | some obj =>
    let schemaRef := storedSchemaRef obj
    match (M.schema object).name with
    | none =>
      (GoResult.panicked "runtime error: invalid memory address or nil pointer dereference",
        false)
    | some nsName =>
      if schemaRef ≠ nsName then
        (GoResult.error ("schema mismatch or missing schema_ref: have=" ++ schemaRef
          ++ " want=" ++ nsName), false)
      else
        match M.jsonUnmarshal obj.data object with
        | (some e, _) => (GoResult.error ("json: " ++ e), true)
        | (none, object1) =>
          match M.avroEncode object1 with
          | .error e => (GoResult.error ("validate: " ++ e), true)
          | .ok _ => (GoResult.ok object1, true)

/-- Model of the externals used by `PublishMessage`: `json.Marshal` on the
payload, and the pub/sub transport (the `topic.Publish` call followed by
`result.Get`, which blocks until the server acknowledges or fails). -/
structure PubSubModel (V : Type) where
  jsonMarshal : V → Except String (List Nat)
  transport : String → List Nat → Except String Unit

/-- Shallow embedding of `PublishMessage` (the Pub/Sub wrapper in package
simpler): marshal the object to JSON, construct the message, publish it and
wait for the result.  The second component is the list of publish calls
handed to the transport during the call, so that not reaching the transport
is observable. -/
def PublishMessage (M : PubSubModel V) (topicID : String) (object : V) :
    GoResult Unit × List (String × List Nat) :=
  match M.jsonMarshal object with
  | .error e => (GoResult.error ("error marshaling message: " ++ e), [])
  | .ok data =>
    match M.transport topicID data with
    | .error e =>
      (GoResult.error ("publishing message to topic " ++ topicID ++ ": " ++ e),
        [(topicID, data)])
    | .ok _ => (GoResult.ok (), [(topicID, data)])

/-- The inner Pub/Sub message of package econ: attributes and the data
bytes, the latter already transport-decoded (encoding/json base64-decodes a
`[]byte` field transparently when the wrapper is parsed). -/
structure PubsubMessage where
  attributes : List (String × String)
  data : List Nat
deriving DecidableEq

/-- The CloudEvent data wrapper of package econ: only the `message` field
is modelled, as in the source. -/
structure MessagePublishedData where
  message : PubsubMessage
deriving DecidableEq

/-- Model of a CloudEvent as `EventToStruct` observes it: `dataAs` is the
result of `e.DataAs(&msg)`, the event payload parsed as the
`MessagePublishedData` wrapper by the out-of-scope CloudEvents and JSON
libraries, with the inner data field transport-decoded; an error when the
payload cannot be interpreted as the wrapper shape. -/
structure Event where
  dataAs : Except String MessagePublishedData

/-- Model of `encoding/json.Unmarshal` into a destination of type `V`:
given input bytes and the current destination value it returns the error,
if any, and the destination state after the call.  `unmarshal_empty`
records the documented encoding/json behaviour that unmarshalling empty
input fails with a syntax error ("unexpected end of JSON input") during the
validity pre-scan, before anything is written to the destination. -/
structure JsonLib (V : Type) where
  unmarshal : List Nat → V → Option String × V
  unmarshal_empty : ∀ v : V, (unmarshal [] v).1.isSome ∧ (unmarshal [] v).2 = v

/-- Shallow embedding of `EventToStruct`, src/unnamed/part_000 lines 34-45:
parse the Pub/Sub wrapper out of the CloudEvent, then json-unmarshal the
inner data bytes into the destination.  Returns the error, if any, and the
destination state after the call. -/
def EventToStruct (J : JsonLib V) (e : Event) (v : V) : Option String × V :=
  match e.dataAs with
  | .error err => (some ("failed to parse pubsub message wrapper: " ++ err), v)
  | .ok msg =>
    match J.unmarshal msg.message.data v with
    | (some err, v1) => (some ("failed to unmarshal message: " ++ err), v1)
    | (none, v1) => (none, v1)

/-- A concrete Nat-valued model instantiating the embedding: `Schema()`
always returns the named schema "T", a value conforms to the schema exactly
when it is even, marshalling writes the value as a single byte,
unmarshalling a single byte replaces the destination by it, and the value
type itself implements `avro.NamedSchema` with name `nm` when `nm` is
`some`. -/
def natModel (nm : Option String) : GoModel Nat where
  schema := fun _ => { name := some "T" }
  avroEncode := fun v => if v % 2 = 0 then .ok () else .error "odd value"
  jsonMarshal := fun v => .ok [v]
  jsonUnmarshal := fun data v =>
    match data with
    | [b] => (none, b)
    | _ => (some "unexpected end of JSON input", v)
  selfNamed := fun _ => nm

/-- A variant of `natModel` whose `Schema()` result is not a named schema. -/
def unnamedModel : GoModel Nat :=
  { natModel none with schema := fun _ => { name := none } }

/-- A variant of `natModel` whose value type implements `avro.NamedSchema`
with name "A" while its `Schema()` is the named schema "B". -/
def driftModel : GoModel Nat :=
  { natModel (some "A") with schema := fun _ => { name := some "B" } }

/-- A concrete stored object with body byte 3 and a matching "T" tag. -/
def storedOdd : StoredObject :=
  { data := [3], contentType := "application/json",
    metadata := some [(schemaRefKey, "T")] }

/-- A concrete stored object whose metadata carries no schema_ref tag. -/
def storedUntagged : StoredObject :=
  { data := [2], contentType := "application/json", metadata := some [] }

/-- A concrete Pub/Sub model: 0 marshals to a single zero byte, every other
value fails to marshal, and the transport accepts everything it is given. -/
def pubModel : PubSubModel Nat where
  jsonMarshal := fun v => if v = 0 then .ok [0] else .error "unsupported type"
  transport := fun _ _ => .ok ()

/-- A concrete JSON library model over Nat destinations: a single byte
replaces the destination, any other input fails without modifying it. -/
def natJson : JsonLib Nat where
  unmarshal := fun data v =>
    match data with
    | [b] => (none, b)
    | _ => (some "unexpected end of JSON input", v)
  unmarshal_empty := fun _ => ⟨rfl, rfl⟩

/-- A concrete event whose payload parses as the wrapper, carrying the
single inner byte 7. -/
def eventWithByte : Event :=
  { dataAs := .ok { message := { attributes := [], data := [7] } } }

/-- A concrete event whose payload parses as the wrapper but whose inner
message has no data bytes. -/
def eventEmptyData : Event :=
  { dataAs := .ok { message := { attributes := [("k", "v")], data := [] } } }

/-- C1: evaluation of the round trip at a failing input.  The value 2 is
schema-valid (its schema-constrained encode succeeds) and JSON-marshals,
yet `UploadJSONSchematized` panics at the bare type assertion
`object.(avro.NamedSchema)` because the value type does not implement
`avro.NamedSchema`, so the upload/download round trip cannot succeed:
nothing is stored under the target bucket and name, and the subsequent
download fails. -/
theorem upload_roundtrip_panics_on_plain_value :
    (natModel none).avroEncode 2 = .ok () ∧
    UploadJSONSchematized (natModel none) Store.empty "b" "o" 2
      = (GoResult.panicked "interface conversion: object is not avro.NamedSchema",
          Store.empty) ∧
    (UploadJSONSchematized (natModel none) Store.empty "b" "o" 2).2 "b" "o" = none ∧
    (DownloadJSONSchematized (natModel none)
        (UploadJSONSchematized (natModel none) Store.empty "b" "o" 2).2 "b" "o" 0).1
      = GoResult.error "getting attrs: storage: object doesn't exist" :=
  ⟨rfl, rfl, rfl, rfl⟩

/-- C3: a value whose schema-constrained encode fails makes
`UploadJSONSchematized` return the validation error with the store left
unchanged: no object is created or overwritten. -/
theorem upload_validation_failure_writes_nothing (M : GoModel V)
    (store : Store) (bucket name : String) (object : V) (e : String)
    (henc : M.avroEncode object = .error e) :
    UploadJSONSchematized M store bucket name object
      = (GoResult.error ("validating object against schema: " ++ e), store) := by
  simp [UploadJSONSchematized, henc]

/-- Witness for C3 at the odd value 3 of the concrete model. -/
theorem upload_validation_failure_writes_nothing_witness :
    UploadJSONSchematized (natModel none) Store.empty "b" "o" 3
      = (GoResult.error ("validating object against schema: " ++ "odd value"),
          Store.empty) :=
  upload_validation_failure_writes_nothing (natModel none) Store.empty "b" "o" 3
    "odd value" rfl

/-- C4: evaluation at a failing input.  The value 4 has the named schema
"T" and passes both the schema-constrained encode and JSON marshalling, yet
`UploadJSONSchematized` panics at the type assertion
`object.(avro.NamedSchema)` instead of returning an error, because the
value itself does not implement `avro.NamedSchema`. -/
theorem upload_panics_despite_named_schema :
    ((natModel none).schema 4).name = some "T" ∧
    (natModel none).avroEncode 4 = .ok () ∧
    (natModel none).jsonMarshal 4 = .ok [4] ∧
    (UploadJSONSchematized (natModel none) Store.empty "bkt" "obj" 4).1
      = GoResult.panicked "interface conversion: object is not avro.NamedSchema" :=
  ⟨rfl, rfl, rfl, rfl⟩

/-- C2 counterexample: with a destination whose `Schema()` is not a named
schema and a stored object whose tag is missing, `DownloadJSONSchematized`
panics — the guarded assertion leaves `ns` nil and the error formatting
calls `ns.Name()` — instead of returning an error as the claim states. -/
theorem download_panics_on_unnamed_schema :
    DownloadJSONSchematized unnamedModel
        (Store.set Store.empty "b" "o" storedUntagged) "b" "o" 0
      = (GoResult.panicked
          "runtime error: invalid memory address or nil pointer dereference", false) := by
  simp [DownloadJSONSchematized, Store.set, unnamedModel, storedUntagged]

/-- C2 (amended): for a destination whose schema is a named schema, if the
stored tag (the empty string when the tag is missing or the metadata nil)
differs from the schema name, `DownloadJSONSchematized` fails with the
mismatch error and no body bytes of the object are read, regardless of
whether the body would parse. -/
theorem download_tag_mismatch_fails_before_body (M : GoModel V)
    (store : Store) (bucket name : String) (object : V) (obj : StoredObject)
    (nsName : String)
    (hobj : store bucket name = some obj)
    (hname : (M.schema object).name = some nsName)
    (hmm : storedSchemaRef obj ≠ nsName) :
    DownloadJSONSchematized M store bucket name object
      = (GoResult.error ("schema mismatch or missing schema_ref: have="
          ++ storedSchemaRef obj ++ " want=" ++ nsName), false) := by
  simp [DownloadJSONSchematized, hobj, hname, hmm]

/-- Witness for C2: a stored object with an empty metadata map (tag
missing) rejected by a destination with schema name "T", body unread. -/
theorem download_tag_mismatch_fails_before_body_witness :
    DownloadJSONSchematized (natModel none)
        (Store.set Store.empty "b" "o" storedUntagged) "b" "o" 0
      = (GoResult.error ("schema mismatch or missing schema_ref: have="
          ++ storedSchemaRef storedUntagged ++ " want=" ++ "T"), false) :=
  download_tag_mismatch_fails_before_body (natModel none)
    (Store.set Store.empty "b" "o" storedUntagged) "b" "o" 0 storedUntagged "T"
    (by simp [Store.set]) rfl (by decide)

/-- C5: when the stored tag matches the destination schema name and the
body unmarshals, but the populated destination then fails its
schema-constrained encode, `DownloadJSONSchematized` returns the
re-validation error instead of accepting the object. -/
theorem download_revalidation_failure_reported (M : GoModel V)
    (store : Store) (bucket name : String) (object object1 : V)
    (obj : StoredObject) (nsName e : String)
    (hobj : store bucket name = some obj)
    (hname : (M.schema object).name = some nsName)
    (htag : storedSchemaRef obj = nsName)
    (hun : M.jsonUnmarshal obj.data object = (none, object1))
    (henc : M.avroEncode object1 = .error e) :
    DownloadJSONSchematized M store bucket name object
      = (GoResult.error ("validate: " ++ e), true) := by
  simp [DownloadJSONSchematized, hobj, hname, htag, hun, henc]

/-- Witness for C5: the stored body 3 carries the matching tag "T" and
unmarshals, but 3 is odd so the re-validation encode fails. -/
theorem download_revalidation_failure_reported_witness :
    DownloadJSONSchematized (natModel none)
        (Store.set Store.empty "b" "o" storedOdd) "b" "o" 0
      = (GoResult.error ("validate: " ++ "odd value"), true) :=
  download_revalidation_failure_reported (natModel none)
    (Store.set Store.empty "b" "o" storedOdd) "b" "o" 0 3 storedOdd "T" "odd value"
    (by simp [Store.set]) rfl (by decide) rfl rfl

/-- C6: evaluation at a failing input.  The value 2 is accepted by
`UploadJSONSchematized` under `driftModel`; the stored body is exactly its
JSON marshalling, the content type is "application/json", and the metadata
is a single entry under `schemaRefKey` — but that entry holds "A", the name
from the value's own `avro.NamedSchema` assertion, not "B", the declared
name of the value's schema. -/
theorem upload_metadata_holds_value_name_not_schema_name :
    (UploadJSONSchematized driftModel Store.empty "b" "o" 2).1 = GoResult.ok () ∧
    driftModel.jsonMarshal 2 = .ok [2] ∧
    (UploadJSONSchematized driftModel Store.empty "b" "o" 2).2 "b" "o"
      = some { data := [2], contentType := "application/json",
               metadata := some [(schemaRefKey, "A")] } ∧
    (driftModel.schema 2).name = some "B" ∧
    metaLookup (some [(schemaRefKey, "A")]) schemaRefKey ≠ "B" := by
  refine ⟨rfl, rfl, ?_, rfl, by decide⟩
  simp [UploadJSONSchematized, driftModel, natModel, upload, Store.set]

/-- C7: `PublishMessage` reaches the transport exactly when JSON
marshalling succeeds: a marshalling failure returns the serialization error
with no publish call handed to the transport, and on success exactly one
publish call is made. -/
theorem publish_marshal_failure_skips_transport (M : PubSubModel V)
    (topicID : String) (object : V) :
    (∀ e, M.jsonMarshal object = .error e →
      PublishMessage M topicID object
        = (GoResult.error ("error marshaling message: " ++ e), [])) ∧
    (∀ data, M.jsonMarshal object = .ok data →
      (PublishMessage M topicID object).2 = [(topicID, data)]) := by
  constructor
  · intro e he
    simp [PublishMessage, he]
  · intro data hd
    cases ht : M.transport topicID data <;> simp [PublishMessage, hd, ht]

/-- Witness for C7: the value 1 fails to marshal under the concrete model,
so the publish returns the serialization error and no transport call. -/
theorem publish_marshal_failure_skips_transport_witness :
    PublishMessage pubModel "t" 1
      = (GoResult.error ("error marshaling message: " ++ "unsupported type"), []) :=
  (publish_marshal_failure_skips_transport pubModel "t" 1).1 "unsupported type" rfl

/-- C8: for an event whose payload parses as the wrapper shape,
`EventToStruct` populates the destination with exactly the value obtained
by json-unmarshalling the decoded inner data bytes directly into it. -/
theorem event_to_struct_equals_direct_unmarshal (J : JsonLib V)
    (e : Event) (msg : MessagePublishedData) (v v1 : V)
    (he : e.dataAs = .ok msg)
    (hu : J.unmarshal msg.message.data v = (none, v1)) :
    EventToStruct J e v = (none, v1) := by
  simp [EventToStruct, he, hu]

/-- Witness for C8: unwrapping the event carrying the inner byte 7 yields
exactly the result of unmarshalling [7] directly into the destination. -/
theorem event_to_struct_equals_direct_unmarshal_witness :
    EventToStruct natJson eventWithByte 0 = (none, 7) :=
  event_to_struct_equals_direct_unmarshal natJson eventWithByte
    { message := { attributes := [], data := [7] } } 0 7 rfl rfl

/-- C10: when the payload parses as the wrapper but the inner message data
field is absent or empty, `EventToStruct` returns an error — it never
reports success with no payload bytes — and leaves the destination
unchanged. -/
theorem event_to_struct_empty_data_fails (J : JsonLib V)
    (e : Event) (msg : MessagePublishedData) (v : V)
    (he : e.dataAs = .ok msg)
    (hd : msg.message.data = []) :
    (EventToStruct J e v).1.isSome = true ∧ (EventToStruct J e v).2 = v := by
  have h := J.unmarshal_empty v
  cases hu : J.unmarshal [] v with
  | mk o v1 =>
    rw [hu] at h
    cases o with
    | none => simp at h
    | some err => simp_all [EventToStruct, he, hd, hu]

/-- Witness for C10: the event whose inner message carries no data bytes
fails to unwrap and leaves the destination 5 unchanged. -/
theorem event_to_struct_empty_data_fails_witness :
    (EventToStruct natJson eventEmptyData 5).1.isSome = true ∧
    (EventToStruct natJson eventEmptyData 5).2 = 5 :=
  event_to_struct_empty_data_fails natJson eventEmptyData
    { message := { attributes := [("k", "v")], data := [] } } 5 rfl rfl

/-- C9: the write path and the read path share the single constant
`schemaRefKey`, whose value is "schema_ref": a successful
`UploadJSONSchematized` stores exactly one metadata entry under
`schemaRefKey`, and the tag check of `DownloadJSONSchematized` examines
that same entry, so a destination whose schema name equals the name written
at upload time passes the check and the body is read. -/
theorem schema_ref_key_shared :
    schemaRefKey = "schema_ref" ∧
    ∀ (W : Type) (M : GoModel W) (store st1 : Store) (bucket name : String)
      (object dest : W) (nm : String),
      UploadJSONSchematized M store bucket name object = (GoResult.ok (), st1) →
      M.selfNamed object = some nm →
      (M.schema dest).name = some nm →
      (∃ data, M.jsonMarshal object = .ok data ∧
        st1 bucket name
          = some (StoredObject.mk data "application/json" (some [(schemaRefKey, nm)]))) ∧
      (DownloadJSONSchematized M st1 bucket name dest).2 = true := by
  refine ⟨rfl, ?_⟩
  intro W M store st1 bucket name object dest nm hup hsn hdn
  cases h1 : M.avroEncode object with
  | error e => simp [UploadJSONSchematized, h1] at hup
  | ok u =>
    cases h2 : M.jsonMarshal object with
    | error e => simp [UploadJSONSchematized, h1, h2] at hup
    | ok data =>
      have hst : Store.set store bucket name
          (StoredObject.mk data "application/json" (some [(schemaRefKey, nm)])) = st1 := by
        simpa [UploadJSONSchematized, h1, h2, hsn, upload] using hup
      have hget : st1 bucket name
          = some (StoredObject.mk data "application/json" (some [(schemaRefKey, nm)])) := by
        rw [← hst]
        simp [Store.set]
      refine ⟨⟨data, rfl, hget⟩, ?_⟩
      have hsr : storedSchemaRef
          (StoredObject.mk data "application/json" (some [(schemaRefKey, nm)])) = nm := by
        simp [storedSchemaRef, metaLookup]
      rcases hu : M.jsonUnmarshal data dest with ⟨o, v1⟩
      cases o with
      | some err => simp [DownloadJSONSchematized, hget, hdn, hsr, hu]
      | none =>
        cases h3 : M.avroEncode v1 <;>
          simp [DownloadJSONSchematized, hget, hdn, hsr, hu, h3]

/-- The store state after the concrete upload used to witness C9. -/
def uploadedStore : Store :=
  (UploadJSONSchematized (natModel (some "T")) Store.empty "b" "o" 2).2

/-- Witness for C9: uploading 2 under the concrete model stores the tag
under `schemaRefKey` and the matching download reads the body. -/
theorem schema_ref_key_shared_witness :
    schemaRefKey = "schema_ref" ∧
    ((∃ data, (natModel (some "T")).jsonMarshal 2 = .ok data ∧
        uploadedStore "b" "o"
          = some (StoredObject.mk data "application/json"
              (some [(schemaRefKey, "T")]))) ∧
      (DownloadJSONSchematized (natModel (some "T")) uploadedStore "b" "o" 0).2
        = true) :=
  ⟨schema_ref_key_shared.1,
    schema_ref_key_shared.2 Nat (natModel (some "T")) Store.empty uploadedStore
      "b" "o" 2 0 "T" rfl rfl rfl⟩

end ImaginationTools
